import Mathlib

/-!
Verification of the training-orchestration layer of the
`kaggle_redefining_cancer_treatment` repository.

The development shallowly embeds the two source files
`src/trainer.py` and `src/text_classification_train.py`:

* `Trainer` (base orchestration class): precondition validation in
  `run`, the distributed-server prefix (parameter-server blocking),
  the stop hooks (`StopAtTimeHook`, the framework's `StopAtStepHook`)
  and the `while not sess.should_stop(): self.step(...)` loop;
* `TextClassificationTrainer`: the embeddings-file loader, the
  periodic logging action `train_step`, and which base-class
  extension points the subclass actually overrides;
* the `main(model, name)` command-line dispatcher.

Python exceptions are embedded as explicit error results, the ambient
clock as an explicit time argument, and method resolution / call arity
(which decide several claims) as explicit dispatch tables read off the
two class bodies.
-/

/- ### Task specification (`task_spec.py`, not part of the sources) -/

/-- Modelled from the spec: `task_spec.py` is not among the sources; the
spec's data model says a task specification holds a role
(worker / parameter-server / chief-master), an index, and the cluster
topology (addresses of peer processes), read once and immutable. -/
inductive Role
  | worker
  | ps
  | master
deriving DecidableEq, Repr

/-- Modelled from the spec: the task specification record.  The cluster
topology is a list of peer addresses; Python truthiness of
`task_spec.cluster_spec` is nonemptiness of this list. -/
structure TaskSpec where
  role : Role
  index : Nat
  cluster_spec : List String
deriving DecidableEq, Repr

/-- Modelled from the spec: the master (chief) role test. -/
def TaskSpec.is_master (ts : TaskSpec) : Bool :=
  ts.role = Role.master

/-- Modelled from the spec: the parameter-server role test. -/
def TaskSpec.is_ps (ts : TaskSpec) : Bool :=
  ts.role = Role.ps

/-- Modelled from the spec: the glossary identifies chief and master. -/
def TaskSpec.is_chief (ts : TaskSpec) : Bool :=
  ts.is_master

/- ### Embedded Python exceptions and results -/

/-- The Python exceptions raised by the embedded code. -/
inductive PyError
  | valueError (msg : String)
  | notImplementedError (msg : String)
  | typeError (msg : String)
deriving DecidableEq, Repr

/-- Result of running a piece of embedded Python code: a value or a
raised exception. -/
inductive PyResult (α : Type)
  | ok (val : α)
  | raised (e : PyError)
deriving DecidableEq, Repr

/- ### The base class `Trainer` (`src/trainer.py`) -/

/-- Opaque bundle of graph handles produced by `create_graph`; the base
class never constructs one. -/
structure GraphData where
  tag : Nat
deriving DecidableEq, Repr

/-- The mutable attributes of a `Trainer` instance that the embedded
methods could touch. -/
structure TrainerState where
  is_chief : Bool
deriving DecidableEq, Repr

/-- `Trainer.create_graph` (trainer.py lines 108-115): the body is a
single `raise NotImplementedError('Should have implemented this')`.
State is passed explicitly; the raise returns no value and no updated
state. -/
def Trainer.create_graph (st : TrainerState) (dataset_tensor : Option Nat)
    (batch_size : Nat) : PyResult (GraphData × TrainerState) :=
  PyResult.raised (PyError.notImplementedError "Should have implemented this")

/-- `Trainer.step` (trainer.py lines 127-133): the body is a single
`raise NotImplementedError('Should have implemented this')`. -/
def Trainer.step (st : TrainerState) (session : Nat) (graph_data : GraphData) :
    PyResult (Unit × TrainerState) :=
  PyResult.raised (PyError.notImplementedError "Should have implemented this")

/-- The observable phases `Trainer.run` can reach before (or instead of)
entering graph construction. -/
inductive RunEvent
  | serverStart
  | serverJoin
  | graphConstruction
deriving DecidableEq, Repr

/-- How the prefix of `Trainer.run` ends. -/
inductive RunResult
  | configError (msg : String)
  | psBlocked
  | proceedsToGraph
deriving DecidableEq, Repr

/-- The entry of `Trainer.run(batch_size, epochs)` (trainer.py lines
52-70), as written in the source: first the duplicate-master
precondition check (`raise ValueError` at line 53), then, when the
cluster spec is truthy, the `tf.train.Server` start and, for a
parameter server, the blocking `server.join()` (lines 55-59); every
other task falls through to graph construction (line 72 onwards).
The returned list records which of these events happened, in order. -/
def Trainer.run_entry (ts : TaskSpec) : RunResult × List RunEvent :=
  if ts.is_master && decide (ts.index > 0) then
    (RunResult.configError "Only one replica of master expected", [])
  else if ts.cluster_spec ≠ [] then
    if ts.is_ps then
      (RunResult.psBlocked, [RunEvent.serverStart, RunEvent.serverJoin])
    else
      (RunResult.proceedsToGraph,
        [RunEvent.serverStart, RunEvent.graphConstruction])
  else
    (RunResult.proceedsToGraph, [RunEvent.graphConstruction])

/- ### `StopAtTimeHook` (trainer.py lines 136-150) -/

/-- `StopAtTimeHook.begin` (trainer.py line 146): records the deadline
`time.time() + self._time_running`.  `t0` is the value `time.time()`
returns at `begin`; `time_running` is the configured duration. -/
def StopAtTimeHook.begin (time_running : Int) (t0 : Int) : Int :=
  t0 + time_running

/-- `StopAtTimeHook.after_run` (trainer.py lines 148-150): requests stop
exactly when `time.time() > self._end_time`.  `t` is the value
`time.time()` returns at this check; the result is whether
`run_context.request_stop()` is called. -/
def StopAtTimeHook.after_run (end_time : Int) (t : Int) : Bool :=
  decide (t > end_time)

/- ### The step-budget stop condition (trainer.py lines 89-92, 105-106) -/

/-- Python truthiness of an optional integer attribute: `None` and `0`
are falsy. -/
def pyTruthy (o : Option Nat) : Bool :=
  match o with
  | none => false
  | some n => decide (n ≠ 0)

/-- The Python-2 comparison `o > 0` where `o` may be `None`: `None`
compares below every integer, so `None > 0` is `False`. -/
def pyGtZero (o : Option Nat) : Bool :=
  match o with
  | none => false
  | some n => decide (n > 0)

/-- The guard on trainer.py line 91:
`(self.max_steps or self.num_steps) and (self.max_steps > 0 or
self.num_steps > 0)` decides whether a `StopAtStepHook` is appended. -/
def stepHookAdded (max_steps num_steps : Option Nat) : Bool :=
  (pyTruthy max_steps || pyTruthy num_steps)
    && (pyGtZero max_steps || pyGtZero num_steps)

/-- Modelled from the spec: the framework's `StopAtStepHook` (external
to the repository) is constructed on trainer.py line 92 with
`num_steps=self.num_steps, last_step=self.max_steps`; it requires
exactly one of the two, and resolves the stopping step as the session's
initial global step plus `num_steps`, or as `last_step` itself. -/
def StopAtStepHook.resolve_last_step (g0 : Nat)
    (num_steps max_steps : Option Nat) : PyResult Nat :=
  match num_steps, max_steps with
  | some _, some _ =>
      PyResult.raised (PyError.valueError
        "Only one of num_steps or last_step can be specified.")
  | none, none =>
      PyResult.raised (PyError.valueError
        "One of num_steps or last_step must be specified.")
  | some n, none => PyResult.ok (g0 + n)
  | none, some l => PyResult.ok l

/-- Modelled from the spec: the hook's per-step check requests stop once
the global step has reached the resolved stopping step. -/
def StopAtStepHook.after_run (last_step global_step : Nat) : Bool :=
  decide (last_step ≤ global_step)

/-- The training loop `while not sess.should_stop(): self.step(sess,
graph_data)` (trainer.py lines 105-106) under a `StopAtStepHook`:
`should_stop` is observed at the top of each iteration and becomes true
when the hook's after-run check of the previous iteration requested
stop; each step increments the global step by one (the optimizer is
applied with the global-step counter).  Returns how many times the step
function is invoked, starting from global step `gs`. -/
def trainLoopSteps (gs last_step : Nat) : Nat :=
  if last_step ≤ gs then 0
  else 1 + trainLoopSteps (gs + 1) last_step
termination_by last_step - gs
decreasing_by simp_wf; omega

/- ### Method tables of the two classes (dispatch and call arity) -/

/-- The method names that matter for dispatch between `Trainer` and
`TextClassificationTrainer`. -/
inductive MethodName
  | run
  | create_graph
  | create_hooks
  | step
  | model
  | train_step
  | after_create_session
deriving DecidableEq, Repr

/-- A method signature as written in a class body: its positional
parameters besides `self`, how many of them carry default values, and
whether its body is a bare `raise NotImplementedError`. -/
structure MethodDef where
  params : List String
  numDefaults : Nat
  raisesNotImplemented : Bool
deriving DecidableEq, Repr

/-- The methods the class body of `Trainer` defines (trainer.py lines
46, 108, 117, 127), with their parameter lists. -/
def Trainer.methodTable : MethodName → Option MethodDef
  | MethodName.run => some ⟨["batch_size", "epochs"], 0, false⟩
  | MethodName.create_graph =>
      some ⟨["dataset_tensor", "batch_size"], 0, true⟩
  | MethodName.create_hooks => some ⟨["graph_data"], 0, false⟩
  | MethodName.step => some ⟨["session", "graph_data"], 0, true⟩
  | _ => none

/-- The methods the class body of `TextClassificationTrainer` defines
(text_classification_train.py lines 38, 75, 78, 90): `model` with three
defaulted parameters, `create_graph` with no parameters besides `self`,
`train_step`, and `after_create_session`.  No method named `step` and no
method named `run` appears in this class body. -/
def TextClassificationTrainer.methodTable : MethodName → Option MethodDef
  | MethodName.model =>
      some ⟨["vocabulary_size", "embeddings_size", "output_classes"],
        3, false⟩
  | MethodName.create_graph => some ⟨[], 0, false⟩
  | MethodName.train_step => some ⟨["session", "graph_data"], 0, false⟩
  | MethodName.after_create_session => some ⟨["session", "coord"], 0, false⟩
  | _ => none

/-- Python attribute lookup on a `TextClassificationTrainer` instance:
the subclass body first, then the base class.  The boolean records
whether the subclass supplied the method. -/
def TextClassificationTrainer.resolve (m : MethodName) :
    Option (Bool × MethodDef) :=
  match TextClassificationTrainer.methodTable m with
  | some d => some (true, d)
  | none =>
    match Trainer.methodTable m with
    | some d => some (false, d)
    | none => none

/-- Outcome of calling a bound method with `nArgs` positional
arguments: a `TypeError` when the count cannot satisfy the signature
(raised before the body runs), the body's bare
`NotImplementedError`, or the body running. -/
inductive CallOutcome
  | typeError
  | notImplementedError
  | bodyRuns
  | attributeError
deriving DecidableEq, Repr

/-- Python call semantics against a signature: too many arguments, or
fewer than the non-defaulted parameters, is a `TypeError`. -/
def callMethod (d : MethodDef) (nArgs : Nat) : CallOutcome :=
  if nArgs > d.params.length ∨ nArgs + d.numDefaults < d.params.length then
    CallOutcome.typeError
  else if d.raisesNotImplemented then CallOutcome.notImplementedError
  else CallOutcome.bodyRuns

/-- Calling method `m` with `nArgs` positional arguments on a
`TextClassificationTrainer` instance. -/
def TextClassificationTrainer.call (m : MethodName) (nArgs : Nat) :
    CallOutcome :=
  match TextClassificationTrainer.resolve m with
  | some (_, d) => callMethod d nArgs
  | none => CallOutcome.attributeError

/- ### The command-line dispatcher `main(model, name)` -/

/-- The three driver classes `main` can instantiate
(text_classification_train.py lines 95-110). -/
inductive Driver
  | textClassificationTrainer
  | textClassificationTest
  | textClassificationEvaluator
deriving DecidableEq, Repr

/-- The `type=` argument passed to `TextClassificationDataset`. -/
inductive DatasetType
  | train
  | test
deriving DecidableEq, Repr

/-- What one invocation of `main` does: which driver it constructs, on
which dataset, and with how many positional arguments it calls the
driver's `run` method. -/
structure MainDispatch where
  driver : Driver
  dataset_type : DatasetType
  run_args : Nat
deriving DecidableEq, Repr

/-- `main(model, name)` (text_classification_train.py lines 95-110):
`cli_args` is `sys.argv[1:]`, so `len(sys.argv) > 1 and sys.argv[1] ==
'test'` is `cli_args.head? = some "test"`.  The `test` branch builds a
`TextClassificationTest` on the train dataset, the `eval` branch a
`TextClassificationEvaluator` on the test dataset, and every other
invocation (in particular no argument) a `TextClassificationTrainer` on
the train dataset; each branch then calls the driver's `run()` with no
arguments. -/
def text_classification_train.main (cli_args : List String) : MainDispatch :=
  if cli_args.head? = some "test" then
    ⟨Driver.textClassificationTest, DatasetType.train, 0⟩
  else if cli_args.head? = some "eval" then
    ⟨Driver.textClassificationEvaluator, DatasetType.test, 0⟩
  else
    ⟨Driver.textClassificationTrainer, DatasetType.train, 0⟩

/- ### `_load_embeddings` (text_classification_train.py lines 29-36) -/

/-- A character-level field of a csv row. -/
abbrev CsvField := List Char

/-- Splitting a line at commas, the csv reader's behaviour on rows
without quote characters (`quoting=csv.QUOTE_MINIMAL` leaves plain
numeric rows unquoted, so the quote character never fires on the
embedding rows the claim is about). -/
def splitComma : List Char → List CsvField
  | [] => [[]]
  | c :: rest =>
    let r := splitComma rest
    if c = ',' then [] :: r
    else (c :: r.headI) :: r.tail

/-- Writing a row of fields as one comma-separated line. -/
def joinComma : List CsvField → List Char
  | [] => []
  | [f] => f
  | f :: fs => f ++ ',' :: joinComma fs

/-- Value of a decimal digit character. -/
def digitVal (c : Char) : Nat :=
  c.toNat - 48

/-- Digits of a numeral read left to right. -/
def parseDigits (s : List Char) : Nat :=
  s.foldl (fun n c => 10 * n + digitVal c) 0

/-- Unsigned part of a decimal literal: integer digits, optionally a
point and fraction digits. -/
def parseUFloat (s : List Char) : Rat :=
  let intPart := s.takeWhile (fun c => c ≠ '.')
  let fracPart := (s.dropWhile (fun c => c ≠ '.')).drop 1
  (parseDigits intPart : Rat) + (parseDigits fracPart : Rat) / (10 : Rat) ^ fracPart.length
  
/-- The Python builtin `float(r)` applied to a field, modelled on plain
signed decimal literals as exact rationals (the embedding rows are such
literals; the row/column-shape properties do not depend on the numeric
value, only on `float` being applied field by field). -/
def pyFloat (s : List Char) : Rat :=
  match s with
  | '-' :: rest => - parseUFloat rest
  | '+' :: rest => parseUFloat rest
  | _ => parseUFloat s

/-- One row as the csv reader yields it. -/
def csvParseRow (line : List Char) : List CsvField :=
  splitComma line

/-- `TextClassificationTrainer._load_embeddings` (lines 29-36): starts
from an empty `embeddings` list and, for each row the csv reader yields
from the file, appends `[float(r) for r in row]`. The file is given as
its list of lines. -/
def _load_embeddings (file_lines : List (List Char)) : List (List Rat) :=
  file_lines.foldl
    (fun embeddings row => embeddings ++ [(csvParseRow row).map pyFloat]) []

/-- The opening brace character, written via its code point. -/
def lbrace : Char := Char.ofNat 123

/-- The closing brace character, written via its code point. -/
def rbrace : Char := Char.ofNat 125

/-- Python `str.format` restricted to plain positional `{}` holes, which
is all line 31 uses. -/
def pyFormat : List Char → List (List Char) → List Char
  | [], _ => []
  | [c], _ => [c]
  | c :: c2 :: rest, a :: args2 =>
    if c = lbrace ∧ c2 = rbrace then a ++ pyFormat rest args2
    else c :: pyFormat (c2 :: rest) (a :: args2)
  | c :: c2 :: rest, [] => c :: pyFormat (c2 :: rest) []

/-- The template `'embeddings_{}_{}'` of line 31. -/
def embeddings_file_template : List Char :=
  ['e', 'm', 'b', 'e', 'd', 'd', 'i', 'n', 'g', 's', '_',
   lbrace, rbrace, '_', lbrace, rbrace]

/-- The file name computed on line 31:
`'embeddings_{}_{}'.format(vocabulary_size, embeddings_size)`, with the
two numbers already rendered as character strings. -/
def embeddings_file (vs es : List Char) : List Char :=
  pyFormat embeddings_file_template [vs, es]

/- ### The periodic logging action (text_classification_train.py 78-92) -/

/-- The guarded print in `train_step` (lines 82-88): a log line is
emitted exactly when `self.is_chief and time.time() >
self.print_timestamp + 5 * 60`, and emitting resets
`self.print_timestamp` to the current time.  `t` is the clock value
during this step; the result is (line emitted?, new print timestamp). -/
def TextClassificationTrainer.train_step_log (is_chief : Bool) (t : Int)
    (print_timestamp : Int) : Bool × Int :=
  if is_chief && decide (t > print_timestamp + 5 * 60) then (true, t)
  else (false, print_timestamp)

/-- The clock values at which log lines are emitted over a run: one
`train_step` per element of `times`, threading `print_timestamp`, whose
initial value is the session-creation time recorded by
`after_create_session` (line 92). -/
def TextClassificationTrainer.log_times (is_chief : Bool)
    (print_timestamp : Int) : List Int → List Int
  | [] => []
  | t :: rest =>
    match TextClassificationTrainer.train_step_log is_chief t print_timestamp with
    | (true, ts2) => t :: TextClassificationTrainer.log_times is_chief ts2 rest
    | (false, ts2) => TextClassificationTrainer.log_times is_chief ts2 rest

/- ### Helper lemmas -/

/-- The loop under a step budget runs the step function once per global
step between its start and the resolved stopping step. -/
theorem trainLoopSteps_eq_sub (gs last_step : Nat) :
    trainLoopSteps gs last_step = last_step - gs := by
  rw [trainLoopSteps]
  by_cases h : last_step ≤ gs
  · simp only [if_pos h]
    omega
  · simp only [if_neg h, trainLoopSteps_eq_sub (gs + 1) last_step]
    omega
termination_by last_step - gs
decreasing_by simp_wf; omega

/-- Splitting a line never yields an empty list of fields. -/
theorem splitComma_ne_nil : ∀ l : List Char, splitComma l ≠ []
  | [] => by simp [splitComma]
  | c :: rest => by
    simp only [splitComma]
    split_ifs <;> simp

/-- A comma-free line is a single field. -/
theorem splitComma_eq_single {f : List Char} (h : ',' ∉ f) :
    splitComma f = [f] := by
  induction f with
  | nil => rfl
  | cons c cs ih =>
    have hc : c ≠ ',' := fun e => h (e ▸ List.mem_cons_self c cs)
    have hcs : ',' ∉ cs := fun m => h (List.mem_cons_of_mem c m)
    simp [splitComma, ih hcs, hc]

/-- Splitting past a leading comma-free field and a comma. -/
theorem splitComma_field_comma (f rest : List Char) (h : ',' ∉ f) :
    splitComma (f ++ ',' :: rest) = f :: splitComma rest := by
  induction f with
  | nil => simp [splitComma]
  | cons c cs ih =>
    have hc : c ≠ ',' := fun e => h (e ▸ List.mem_cons_self c cs)
    have hcs : ',' ∉ cs := fun m => h (List.mem_cons_of_mem c m)
    simp [splitComma, ih hcs, hc]

/-- Splitting inverts joining for a nonempty row of comma-free
fields. -/
theorem splitComma_joinComma :
    ∀ fs : List CsvField, fs ≠ [] → (∀ f ∈ fs, ',' ∉ f) →
      splitComma (joinComma fs) = fs
  | [], h, _ => absurd rfl h
  | [f], _, hall => by
    simp [joinComma, splitComma_eq_single (hall f (List.mem_singleton.mpr rfl))]
  | f :: f2 :: fs, _, hall => by
    have h1 : ',' ∉ f := hall f (List.mem_cons_self _ _)
    have hrest : ∀ g ∈ f2 :: fs, ',' ∉ g :=
      fun g hg => hall g (List.mem_cons_of_mem f hg)
    show splitComma (f ++ ',' :: joinComma (f2 :: fs)) = f :: f2 :: fs
    rw [splitComma_field_comma f _ h1,
        splitComma_joinComma (f2 :: fs) (by simp) hrest]

/-- Appending through a fold, as `_load_embeddings` builds its list. -/
theorem foldl_append_eq_map {α β : Type} (f : α → β) :
    ∀ (l : List α) (acc : List β),
      l.foldl (fun e r => e ++ [f r]) acc = acc ++ l.map f
  | [], acc => by simp
  | x :: xs, acc => by
    simp only [List.foldl_cons, List.map_cons,
      foldl_append_eq_map f xs (acc ++ [f x])]
    simp

/-- The loader is the per-line csv parse followed by `float` on each
field, kept in file order. -/
theorem load_embeddings_eq_map (ls : List (List Char)) :
    _load_embeddings ls = ls.map (fun l => (csvParseRow l).map pyFloat) := by
  unfold _load_embeddings
  simpa using foldl_append_eq_map (fun l => (csvParseRow l).map pyFloat) ls []

/-- The file-name format of line 31, with the holes filled in place. -/
theorem embeddings_file_format (vs es : List Char) :
    embeddings_file vs es
      = ['e', 'm', 'b', 'e', 'd', 'd', 'i', 'n', 'g', 's', '_']
        ++ vs ++ '_' :: es := by
  simp [embeddings_file, embeddings_file_template, pyFormat, lbrace, rbrace]

/-- A non-chief process never emits a log line. -/
theorem log_times_not_chief :
    ∀ (times : List Int) (ts : Int),
      TextClassificationTrainer.log_times false ts times = []
  | [], _ => rfl
  | t :: rest, ts => by
    simp [TextClassificationTrainer.log_times,
      TextClassificationTrainer.train_step_log, log_times_not_chief rest ts]

/-- Every emitted log time lies strictly beyond the threshold carried
into the run. -/
theorem log_times_mem_lb (chief : Bool) :
    ∀ (times : List Int) (ts x : Int),
      x ∈ TextClassificationTrainer.log_times chief ts times → ts + 300 < x
  | [], ts, x, hx => by
    simp [TextClassificationTrainer.log_times] at hx
  | t :: rest, ts, x, hx => by
    by_cases hb : (chief && decide (t > ts + 5 * 60)) = true
    · have ht : ts + 300 < t := by
        have := (Bool.and_eq_true _ _).mp hb
        have := of_decide_eq_true this.2
        omega
      simp only [TextClassificationTrainer.log_times,
        TextClassificationTrainer.train_step_log, hb, if_true] at hx
      rcases List.mem_cons.mp hx with h | h
      · omega
      · have := log_times_mem_lb chief rest t x h
        omega
    · have hb2 : (chief && decide (t > ts + 5 * 60)) = false := by
        revert hb
        cases chief && decide (t > ts + 5 * 60) <;> simp
      simp only [TextClassificationTrainer.log_times,
        TextClassificationTrainer.train_step_log, hb2, Bool.false_eq_true,
        if_false] at hx
      exact log_times_mem_lb chief rest ts x hx

/-- Consecutive emitted log times are strictly more than 300 seconds
apart. -/
theorem log_times_spacing (chief : Bool) :
    ∀ (times : List Int) (ts : Int),
      List.Chain' (fun a b : Int => a + 300 < b)
        (TextClassificationTrainer.log_times chief ts times)
  | [], _ => by simp [TextClassificationTrainer.log_times]
  | t :: rest, ts => by
    by_cases hb : (chief && decide (t > ts + 5 * 60)) = true
    · simp only [TextClassificationTrainer.log_times,
        TextClassificationTrainer.train_step_log, hb, if_true]
      refine List.chain'_cons'.mpr ⟨?_, log_times_spacing chief rest t⟩
      intro y hy
      exact log_times_mem_lb chief rest t y (List.mem_of_mem_head? hy)
    · have hb2 : (chief && decide (t > ts + 5 * 60)) = false := by
        revert hb
        cases chief && decide (t > ts + 5 * 60) <;> simp
      simp only [TextClassificationTrainer.log_times,
        TextClassificationTrainer.train_step_log, hb2, Bool.false_eq_true,
        if_false]
      exact log_times_spacing chief rest ts

/- ### The claims -/

/-- C1: for every task specification on which `is_master()` is true and
whose index is not 0, `Trainer.run` raises the configuration
`ValueError` of trainer.py line 53 before any server start, graph
construction, or training loop (the event list is empty). -/
theorem c1_master_nonzero_index_config_error (ts : TaskSpec)
    (hm : ts.is_master = true) (hi : ts.index ≠ 0) :
    Trainer.run_entry ts
      = (RunResult.configError "Only one replica of master expected", []) := by
  have hpos : ts.index > 0 := Nat.pos_of_ne_zero hi
  simp [Trainer.run_entry, hm, hpos]

theorem c1_witness :
    TaskSpec.is_master ⟨Role.master, 1, []⟩ = true
    ∧ (TaskSpec.index ⟨Role.master, 1, []⟩ ≠ 0)
    ∧ Trainer.run_entry ⟨Role.master, 1, []⟩
      = (RunResult.configError "Only one replica of master expected", []) :=
  ⟨by decide, by decide,
    c1_master_nonzero_index_config_error ⟨Role.master, 1, []⟩ (by decide)
      (by decide)⟩

/-- C2: after `begin()` at time `t0` with configured duration `d`, an
`after_run` check at time `t` requests stop iff `t` strictly exceeds
`t0 + d`; in particular the check at exactly `t0 + d` does not request
stop. -/
theorem c2_stop_at_time_iff (d t0 t : Int) :
    (StopAtTimeHook.after_run (StopAtTimeHook.begin d t0) t = true ↔ t0 + d < t)
    ∧ StopAtTimeHook.after_run (StopAtTimeHook.begin d t0) (t0 + d) = false := by
  constructor
  · simp [StopAtTimeHook.after_run, StopAtTimeHook.begin]
  · simp [StopAtTimeHook.after_run, StopAtTimeHook.begin]

/-- C3: a positive step budget `N`, configured through `num_steps` alone
or through `max_steps` alone, makes line 91 append the stop hook, makes
the hook resolve the stopping step `N` for a run starting at global
step 0, and makes the training loop invoke the step function exactly
`N` times before `should_stop` becomes true and the loop exits. -/
theorem c3_step_budget_exact (N : Nat) (hN : 0 < N) :
    stepHookAdded none (some N) = true
    ∧ StopAtStepHook.resolve_last_step 0 (some N) none = PyResult.ok N
    ∧ stepHookAdded (some N) none = true
    ∧ StopAtStepHook.resolve_last_step 0 none (some N) = PyResult.ok N
    ∧ (∀ g0 : Nat, trainLoopSteps g0 (g0 + N) = N)
    ∧ trainLoopSteps 0 N = N := by
  refine ⟨?_, by simp [StopAtStepHook.resolve_last_step], ?_, rfl, ?_, ?_⟩
  · simp [stepHookAdded, pyTruthy, pyGtZero]
    omega
  · simp [stepHookAdded, pyTruthy, pyGtZero]
    omega
  · intro g0
    rw [trainLoopSteps_eq_sub]
    omega
  · rw [trainLoopSteps_eq_sub]
    omega

theorem c3_witness :
    0 < 3
    ∧ (stepHookAdded none (some 3) = true
      ∧ StopAtStepHook.resolve_last_step 0 (some 3) none = PyResult.ok 3
      ∧ stepHookAdded (some 3) none = true
      ∧ StopAtStepHook.resolve_last_step 0 none (some 3) = PyResult.ok 3
      ∧ (∀ g0 : Nat, trainLoopSteps g0 (g0 + 3) = 3)
      ∧ trainLoopSteps 0 3 = 3) :=
  ⟨by decide, c3_step_budget_exact 3 (by decide)⟩

/-- C4: contrary to the claim, `TextClassificationTrainer` does not
plug both extension points into the base run loop: its class body has
no method named `step` (the per-step logging action is named
`train_step`), so `self.step(session, graph_data)` resolves to the
base version and raises `NotImplementedError`; and its `create_graph`
takes no parameters besides `self`, so the base loop's call
`self.create_graph(dataset_tensor, batch_size)` with two arguments
raises a `TypeError`. -/
theorem c4_extension_points_not_dispatched :
    TextClassificationTrainer.methodTable MethodName.step = none
    ∧ TextClassificationTrainer.resolve MethodName.step
      = some (false, ⟨["session", "graph_data"], 0, true⟩)
    ∧ TextClassificationTrainer.call MethodName.step 2
      = CallOutcome.notImplementedError
    ∧ TextClassificationTrainer.resolve MethodName.create_graph
      = some (true, ⟨[], 0, false⟩)
    ∧ TextClassificationTrainer.call MethodName.create_graph 2
      = CallOutcome.typeError
    ∧ TextClassificationTrainer.methodTable MethodName.train_step
      = some ⟨["session", "graph_data"], 0, false⟩ := by
  decide

/-- C5: the dispatcher builds a `TextClassificationTrainer` on the
train dataset when no mode argument is given, a
`TextClassificationTest` on the train dataset for `test`, and a
`TextClassificationEvaluator` on the test dataset for `eval`, calling
the driver's run loop in each case. -/
theorem c5_main_dispatch (rest : List String) :
    text_classification_train.main []
      = ⟨Driver.textClassificationTrainer, DatasetType.train, 0⟩
    ∧ text_classification_train.main ("test" :: rest)
      = ⟨Driver.textClassificationTest, DatasetType.train, 0⟩
    ∧ text_classification_train.main ("eval" :: rest)
      = ⟨Driver.textClassificationEvaluator, DatasetType.test, 0⟩ :=
  ⟨rfl, rfl, rfl⟩

/-- C6: on a file of `R` rows, each `C` comma-separated float fields,
`_load_embeddings` returns exactly `R` lists of exactly `C` floats, in
file order, and the file it opens is named
`embeddings_{vocabulary_size}_{embeddings_size}`. -/
theorem c6_load_embeddings_shape (rows : List (List CsvField)) (C : Nat)
    (hC : 0 < C)
    (hrows : ∀ row ∈ rows, row.length = C ∧ ∀ f ∈ row, ',' ∉ f) :
    _load_embeddings (rows.map joinComma)
      = rows.map (fun row => row.map pyFloat)
    ∧ (_load_embeddings (rows.map joinComma)).length = rows.length
    ∧ (∀ e ∈ _load_embeddings (rows.map joinComma), e.length = C)
    ∧ (∀ vs es : List Char,
        embeddings_file vs es
          = ['e', 'm', 'b', 'e', 'd', 'd', 'i', 'n', 'g', 's', '_']
            ++ vs ++ '_' :: es) := by
  have hmain : _load_embeddings (rows.map joinComma)
      = rows.map (fun row => row.map pyFloat) := by
    rw [load_embeddings_eq_map, List.map_map]
    apply List.map_congr_left
    intro row hrow
    obtain ⟨hlen, hcf⟩ := hrows row hrow
    have hne : row ≠ [] := by
      intro h
      rw [h] at hlen
      simp at hlen
      omega
    simp [Function.comp, csvParseRow, splitComma_joinComma row hne hcf]
  refine ⟨hmain, by rw [hmain]; simp, ?_, fun vs es => embeddings_file_format vs es⟩
  intro e he
  rw [hmain] at he
  obtain ⟨row, hrow, rfl⟩ := List.mem_map.mp he
  simp [(hrows row hrow).1]

theorem c6_witness :
    0 < 2
    ∧ (∀ row ∈ ([[['1'], ['2']], [['3'], ['4']]] : List (List CsvField)),
        row.length = 2 ∧ ∀ f ∈ row, ',' ∉ f)
    ∧ (_load_embeddings (([[['1'], ['2']], [['3'], ['4']]] :
          List (List CsvField)).map joinComma)
        = ([[['1'], ['2']], [['3'], ['4']]] :
            List (List CsvField)).map (fun row => row.map pyFloat)
      ∧ (_load_embeddings (([[['1'], ['2']], [['3'], ['4']]] :
            List (List CsvField)).map joinComma)).length
          = ([[['1'], ['2']], [['3'], ['4']]] : List (List CsvField)).length
      ∧ (∀ e ∈ _load_embeddings (([[['1'], ['2']], [['3'], ['4']]] :
            List (List CsvField)).map joinComma), e.length = 2)
      ∧ (∀ vs es : List Char,
          embeddings_file vs es
            = ['e', 'm', 'b', 'e', 'd', 'd', 'i', 'n', 'g', 's', '_']
              ++ vs ++ '_' :: es)) :=
  ⟨by decide, by decide,
    c6_load_embeddings_shape [[['1'], ['2']], [['3'], ['4']]] 2 (by decide)
      (by decide)⟩

/-- C7: in the concrete trainer's logging action, a non-chief process
never emits a log line (per call and over any run), and on any process
the emitted log times are consecutively separated by strictly more than
300 seconds (5 minutes) of clock time. -/
theorem c7_periodic_logging (is_chief : Bool) (ts : Int) (times : List Int) :
    TextClassificationTrainer.log_times false ts times = []
    ∧ (∀ t pts : Int,
        (TextClassificationTrainer.train_step_log false t pts).1 = false)
    ∧ List.Chain' (fun a b : Int => a + 300 < b)
        (TextClassificationTrainer.log_times is_chief ts times) :=
  ⟨log_times_not_chief times ts,
    fun t pts => by simp [TextClassificationTrainer.train_step_log],
    log_times_spacing is_chief times ts⟩

/-- C8: both base-class extension points raise `NotImplementedError`
on every input; the raised result carries no return value and no
updated trainer state. -/
theorem c8_base_extension_points_raise (st : TrainerState)
    (dt : Option Nat) (bs : Nat) (session : Nat) (gd : GraphData) :
    Trainer.create_graph st dt bs
      = PyResult.raised
          (PyError.notImplementedError "Should have implemented this")
    ∧ Trainer.step st session gd
      = PyResult.raised
          (PyError.notImplementedError "Should have implemented this") :=
  ⟨rfl, rfl⟩

/-- C9: the train branch of `main` constructs a
`TextClassificationTrainer` and calls `run()` with zero positional
arguments, while the inherited `Trainer.run` requires the two
non-defaulted parameters `batch_size` and `epochs`, so the call raises
a `TypeError` before the method body (and hence any training step) can
execute. -/
theorem c9_train_mode_run_arity_error :
    (text_classification_train.main []).driver
      = Driver.textClassificationTrainer
    ∧ (text_classification_train.main []).run_args = 0
    ∧ TextClassificationTrainer.resolve MethodName.run
      = some (false, ⟨["batch_size", "epochs"], 0, false⟩)
    ∧ TextClassificationTrainer.call MethodName.run
        (text_classification_train.main []).run_args
      = CallOutcome.typeError := by
  decide

/-- C10: a task with a non-empty cluster spec whose role is parameter
server starts the server and blocks in `server.join()`: the run never
reaches graph construction (no `graphConstruction` event, hence no
session creation and no training step). -/
theorem c10_ps_blocks_in_join (ts : TaskSpec)
    (hc : ts.cluster_spec ≠ []) (hp : ts.is_ps = true) :
    Trainer.run_entry ts
      = (RunResult.psBlocked, [RunEvent.serverStart, RunEvent.serverJoin])
    ∧ RunEvent.graphConstruction ∉ (Trainer.run_entry ts).2 := by
  have hrole : ts.role = Role.ps := by
    simpa [TaskSpec.is_ps] using hp
  have hm : ts.is_master = false := by
    simp [TaskSpec.is_master, hrole]
  have h1 : Trainer.run_entry ts
      = (RunResult.psBlocked, [RunEvent.serverStart, RunEvent.serverJoin]) := by
    simp [Trainer.run_entry, hm, hc, hp]
  refine ⟨h1, ?_⟩
  rw [h1]
  decide

theorem c10_witness :
    (TaskSpec.cluster_spec ⟨Role.ps, 0, ["localhost:2222"]⟩ ≠ [])
    ∧ TaskSpec.is_ps ⟨Role.ps, 0, ["localhost:2222"]⟩ = true
    ∧ (Trainer.run_entry ⟨Role.ps, 0, ["localhost:2222"]⟩
        = (RunResult.psBlocked, [RunEvent.serverStart, RunEvent.serverJoin])
      ∧ RunEvent.graphConstruction
          ∉ (Trainer.run_entry ⟨Role.ps, 0, ["localhost:2222"]⟩).2) :=
  ⟨by decide, by decide,
    c10_ps_blocks_in_join ⟨Role.ps, 0, ["localhost:2222"]⟩ (by decide)
      (by decide)⟩
